import Mathlib

/- Shallow embedding of two Perceval backend connectors:
   src/perceval/backends/core/googlehits.py (flat source) and
   src/perceval/backends/core/jenkins.py (hierarchical source).
   Network responses and the system clock are passed in as explicit
   parameters; Python exceptions become Except values or error fields. -/

deriving instance DecidableEq for Except

namespace Perceval

/-- The perceval BackendError, raised for invalid construction-time arguments. -/
structure BackendError where
  cause : String
deriving DecidableEq

/-- Python truthiness of an optional string argument: None and the empty
    string are falsy, any other string is truthy. -/
def truthyStr : Option String → Bool
  | none => false
  | some s => !(s == "")

/-- Python str.strip on the character list of a string: drop leading and
    trailing whitespace. -/
def pyStrip (l : List Char) : List Char :=
  ((l.dropWhile Char.isWhitespace).reverse.dropWhile Char.isWhitespace).reverse

namespace GoogleHits

/-- The module constant CATEGORY_HITS of googlehits.py. -/
def CATEGORY_HITS : String := "google_hits"

/-- The argument validation performed by GoogleHits.__init__: it raises
    BackendError exactly when the keywords list has length one and its sole
    element strips to the empty string. -/
def init_check (keywords : List String) : Except BackendError Unit :=
  if keywords.length == 1 && pyStrip (keywords.headD "").data == [] then
    .error ⟨"No keywords provided"⟩
  else
    .ok ()

/-- Abstraction of the rendered search page handed to GoogleHits.__parse_hits:
    either BeautifulSoup finds no div with id resultStats (find returns None,
    so taking .text raises), or it finds one whose .text is the given string. -/
inductive HitsPayload
  | noMarker
  | marker (text : String)
deriving DecidableEq

/-- The two ways __parse_hits raises: .text on a missing marker div, and
    .group(0) on a failed digit search. Both are AttributeError in Python. -/
inductive GHError
  | attrNoMarker
  | attrNoDigits
deriving DecidableEq

/-- The hits_json dictionary built by __parse_hits. -/
structure HitsItem where
  fetched_on : Int
  id : String
  keywords : List String
  type : String
  hits : Nat
deriving DecidableEq

/-- hit_string.replace(",", "").replace(".", ""): removing every occurrence
    of a single character equals filtering it out. -/
def stripSeps (s : String) : String :=
  ⟨(s.data.filter (fun c => !(c == ','))).filter (fun c => !(c == '.'))⟩

/-- re.search of one or more digits: the first maximal run of digit
    characters, if any. -/
def firstDigitRun : List Char → Option (List Char)
  | [] => none
  | c :: rest =>
    if c.isDigit then some (c :: rest.takeWhile Char.isDigit)
    else firstDigitRun rest

/-- int() applied to a nonempty string of decimal digits. -/
def digitsToNat (l : List Char) : Nat :=
  l.foldl (fun a c => 10 * a + (c.toNat - ('0').toNat)) 0

/-- GoogleHits.__parse_hits. The uuid function and the clock reading
    (datetime_utcnow().timestamp()) are explicit parameters. -/
def parse_hits (keywords : List String) (uuid : List String → String) (now : Int)
    (p : HitsPayload) : Except GHError HitsItem :=
  match p with
  | .noMarker => .error .attrNoMarker
  | .marker text =>
    let hit_string := stripSeps text
    let fetched_on := now
    let id_args := keywords ++ [toString fetched_on]
    let base : HitsItem :=
      { fetched_on := fetched_on, id := uuid id_args,
        keywords := keywords, type := "googleSearchHits", hits := 0 }
    if hit_string == "" then .ok base
    else
      match firstDigitRun hit_string.data with
      | none => .error .attrNoDigits
      | some ds => .ok { base with hits := digitsToNat ds }

/-- GoogleHits.fetch_items: obtain one raw payload from the client and yield
    the single parsed item; a parse failure aborts the run with no items. -/
def fetch_items (keywords : List String) (uuid : List String → String) (now : Int)
    (p : HitsPayload) : Except GHError (List HitsItem) :=
  (parse_hits keywords uuid now p).map (fun h => [h])

/-- GoogleHits.metadata_id. -/
def metadata_id (item : HitsItem) : String := item.id

/-- GoogleHits.metadata_category: constant. -/
def metadata_category (_item : HitsItem) : String := CATEGORY_HITS

end GoogleHits

namespace Jenkins

/-- The module constant CATEGORY_BUILD of jenkins.py. -/
def CATEGORY_BUILD : String := "build"

/-- The module constant DETAIL_DEPTH of jenkins.py. -/
def DETAIL_DEPTH : Nat := 1

/-- A build record as yielded by the Jenkins backend: the fields the
    metadata functions read. -/
structure Build where
  url : String
  timestamp : Int
deriving DecidableEq

/-- One entry of the top-level jobs listing: a dictionary with a name and
    a url. -/
structure Job where
  name : String
  url : String
deriving DecidableEq

/-- The body text returned for one builds request, as fetch_items sees it:
    the empty string (falsy), a string json.loads rejects with ValueError,
    or a parsed JSON object, which has a builds list exactly when the key
    builds is present. -/
inductive RawBuilds
  | empty
  | unparsable
  | parsed (builds : Option (List Build))
deriving DecidableEq

/-- The outcome of one network request: a response body, or a
    requests.exceptions.HTTPError carrying the response status code. -/
inductive NetResult
  | ok (raw : RawBuilds)
  | httpError (status : Nat)
deriving DecidableEq

/-- An HTTP request as the JenkinsClient builds it: the urijoin path
    segments, the optional depth payload, and the optional basic-auth pair. -/
structure Request where
  segments : List String
  depth : Option Nat
  auth : Option (String × String)
deriving DecidableEq

/-- The argument validation performed by Jenkins.__init__: it raises
    BackendError when, by Python truthiness, exactly one of user and
    api_token is set. -/
def init_check (user api_token : Option String) : Except BackendError Unit :=
  if (truthyStr user && !truthyStr api_token) || (!truthyStr user && truthyStr api_token) then
    .error ⟨"Authentication method requires user and api_token"⟩
  else
    .ok ()

/-- The auth attribute computed by JenkinsClient.__init__: None unless both
    user and api_token are truthy. -/
def mkAuth (user api_token : Option String) : Option (String × String) :=
  if truthyStr user && truthyStr api_token then
    some (user.getD "", api_token.getD "")
  else
    none

/-- The JenkinsClient state relevant to request construction. -/
structure JenkinsClient where
  base_url : String
  auth : Option (String × String)
  blacklist_jobs : Option (List String)
  detail_depth : Nat
deriving DecidableEq

/-- Jenkins._init_client composed with JenkinsClient.__init__. -/
def init_client (url : String) (user api_token : Option String)
    (blacklist_jobs : Option (List String)) (detail_depth : Nat) : JenkinsClient :=
  { base_url := url, auth := mkAuth user api_token,
    blacklist_jobs := blacklist_jobs, detail_depth := detail_depth }

/-- The deny-list test of JenkinsClient.get_builds: the Python condition
    \x7bself.blacklist_jobs and job_name in self.blacklist_jobs\x7d, with
    truthiness of None and of the empty list. -/
def blacklistHit (bl : Option (List String)) (job_name : String) : Bool :=
  match bl with
  | none => false
  | some l => !l.isEmpty && l.contains job_name

/-- The request issued by JenkinsClient.get_jobs. -/
def JenkinsClient.get_jobs_request (c : JenkinsClient) : Request :=
  { segments := [c.base_url, "api", "json"], depth := none, auth := c.auth }

/-- The request JenkinsClient.get_builds would issue for a job name: none
    when the deny-list test fires, in which case the method returns None
    without touching the network. -/
def JenkinsClient.get_builds_request (c : JenkinsClient) (job_name : String) :
    Option Request :=
  if blacklistHit c.blacklist_jobs job_name then none
  else some { segments := [c.base_url, "job", job_name, "api", "json"],
              depth := some c.detail_depth, auth := c.auth }

/-- JenkinsClient.get_builds against a network modelled as a function from
    requests to results: None for a denied job, otherwise the network
    outcome of the constructed request. -/
def JenkinsClient.get_builds (c : JenkinsClient) (net : Request → NetResult)
    (job_name : String) : Option NetResult :=
  (c.get_builds_request job_name).map net

/-- The errors that escape Jenkins.fetch_items for one job: a re-raised
    HTTPError with status other than 500, or the KeyError from indexing a
    parsed payload without a builds key. -/
inductive FetchErr
  | httpError (status : Nat)
  | keyError
deriving DecidableEq

/-- What the fetch_items loop body does with one job: yield its builds,
    skip it (incrementing the skipped counter), or abort the run. -/
inductive JobOutcome
  | yielded (bs : List Build)
  | skippedJob
  | fatal (e : FetchErr)
deriving DecidableEq

/-- The per-job part of Jenkins.fetch_items, in source order: an HTTPError
    with status 500 is skipped, any other HTTPError is re-raised; a falsy
    payload (None from a denied job, or the empty string) is skipped; a
    ValueError from json.loads is skipped; a parsed payload without the
    builds key raises KeyError; otherwise the builds are yielded. -/
def processJob (c : JenkinsClient) (net : Request → NetResult) (job : Job) :
    JobOutcome :=
  match c.get_builds net job.name with
  | none => .skippedJob
  | some (.httpError s) => if s == 500 then .skippedJob else .fatal (.httpError s)
  | some (.ok .empty) => .skippedJob
  | some (.ok .unparsable) => .skippedJob
  | some (.ok (.parsed none)) => .fatal .keyError
  | some (.ok (.parsed (some bs))) => .yielded bs

/-- The outcome of one fetch_items run: the builds yielded in order, the
    final skipped counter, and the error that aborted the run, if any. -/
structure FetchResult where
  builds : List Build
  skipped : Nat
  error : Option FetchErr
deriving DecidableEq

/-- The loop of Jenkins.fetch_items over the jobs list parsed from
    get_jobs: builds are yielded job by job, skips accumulate in the
    summary counter, and a fatal outcome ends the run at once. -/
def fetch_items (c : JenkinsClient) (net : Request → NetResult) :
    List Job → FetchResult
  | [] => { builds := [], skipped := 0, error := none }
  | job :: rest =>
    match processJob c net job with
    | .yielded bs =>
      let r := fetch_items c net rest
      { builds := bs ++ r.builds, skipped := r.skipped, error := r.error }
    | .skippedJob =>
      let r := fetch_items c net rest
      { builds := r.builds, skipped := r.skipped + 1, error := r.error }
    | .fatal e => { builds := [], skipped := 0, error := some e }

/-- Jenkins.metadata_id: str applied to the url field of a build. -/
def metadata_id (item : Build) : String := item.url

/-- Jenkins.metadata_category: constant. -/
def metadata_category (_item : Build) : String := CATEGORY_BUILD

/-- The builds one job contributes to the output stream. -/
def jobItems (c : JenkinsClient) (net : Request → NetResult) (j : Job) :
    List Build :=
  match processJob c net j with
  | .yielded bs => bs
  | _ => []

/-- Whether one job is counted as skipped. -/
def jobSkipped (c : JenkinsClient) (net : Request → NetResult) (j : Job) : Bool :=
  match processJob c net j with
  | .skippedJob => true
  | _ => false

/-- Whether the loop body aborts the run on this job. -/
def JobOutcome.isFatal : JobOutcome → Bool
  | .fatal _ => true
  | _ => false

end Jenkins

/-- A fixed uuid function for concrete evaluations. -/
def uuid0 : List String → String := fun _ => "uuid-0"

namespace Jenkins

/-- A concrete client with no auth and no deny-list. -/
def clientNoAuth : JenkinsClient :=
  { base_url := "http://jenkins.example", auth := none,
    blacklist_jobs := none, detail_depth := 1 }

/-- A concrete client whose deny-list holds the job name deny. -/
def clientBL : JenkinsClient :=
  { base_url := "http://jenkins.example", auth := none,
    blacklist_jobs := some ["deny"], detail_depth := 1 }

/-- A concrete build record. -/
def build0 : Build := { url := "http://jenkins.example/job/a/1", timestamp := 1000 }

/-- A concrete job. -/
def jobA : Job := { name := "a", url := "http://jenkins.example/job/a" }

/-- A concrete job whose payload the mixed network leaves unparsable. -/
def jobBad : Job := { name := "bad", url := "http://jenkins.example/job/bad" }

/-- A concrete job whose name is on the deny-list of clientBL. -/
def jobDeny : Job := { name := "deny", url := "http://jenkins.example/job/deny" }

/-- A network that answers every request with HTTP status 500. -/
def net500 : Request → NetResult := fun _ => .httpError 500

/-- A network that answers every request with HTTP status 404. -/
def net404 : Request → NetResult := fun _ => .httpError 404

/-- A network that answers every request with one parsable build. -/
def netBuilds : Request → NetResult := fun _ => .ok (.parsed (some [build0]))

/-- A network that answers requests for the job named bad with an
    unparsable body and every other request with one build. -/
def netMix : Request → NetResult := fun r =>
  if r.segments.contains "bad" then .ok .unparsable
  else .ok (.parsed (some [build0]))

/-- Every request get_builds_request constructs carries the client auth. -/
theorem get_builds_request_auth (c : JenkinsClient) (n : String) (r : Request)
    (h : c.get_builds_request n = some r) : r.auth = c.auth := by
  unfold JenkinsClient.get_builds_request at h
  split at h
  · cases h
  · have h' := Option.some.inj h
    subst h'
    rfl

/-- A run over jobs none of which is fatal completes with no error, yields
    exactly the concatenation of the per-job items, and counts exactly the
    skipped jobs. -/
theorem fetch_items_no_fatal (c : JenkinsClient) (net : Request → NetResult)
    (jobs : List Job) (h : ∀ j ∈ jobs, (processJob c net j).isFatal = false) :
    fetch_items c net jobs =
      { builds := jobs.flatMap (jobItems c net),
        skipped := jobs.countP (fun j => jobSkipped c net j),
        error := none } := by
  induction jobs with
  | nil => simp [fetch_items]
  | cons j rest ih =>
    have hj := h j (List.mem_cons_self j rest)
    have ihh := ih (fun x hx => h x (List.mem_cons_of_mem j hx))
    cases hp : processJob c net j with
    | yielded bs =>
      simp [fetch_items, hp, ihh, jobItems, jobSkipped, List.countP_cons, List.flatMap_cons]
    | skippedJob =>
      simp [fetch_items, hp, ihh, jobItems, jobSkipped, List.countP_cons, List.flatMap_cons]
    | fatal e =>
      rw [hp] at hj
      simp [JobOutcome.isFatal] at hj

end Jenkins

namespace GoogleHits

/-- C4: for every keywords list, uuid function and clock reading, one call of
    GoogleHits.fetch_items yields exactly one item whenever the run completes,
    and on the no-data payload (marker present with empty text) it completes
    with a single zero-hits item rather than nothing. -/
theorem googlehits_fetch_yields_one (keywords : List String)
    (uuid : List String → String) (now : Int) :
    (∀ p l, fetch_items keywords uuid now p = .ok l → l.length = 1) ∧
    fetch_items keywords uuid now (.marker "") =
      .ok [{ fetched_on := now, id := uuid (keywords ++ [toString now]),
             keywords := keywords, type := "googleSearchHits", hits := 0 }] := by
  constructor
  · intro p l h
    cases hp : parse_hits keywords uuid now p with
    | error e => simp [fetch_items, hp, Except.map] at h
    | ok item =>
      simp [fetch_items, hp, Except.map] at h
      simp [← h]
  · rfl

/-- C4 witness: on a concrete query and the empty-marker payload, the run
    completes with exactly one item carrying zero hits. -/
theorem googlehits_fetch_yields_one_witness :
    fetch_items ["a"] uuid0 0 (.marker "") =
      .ok [{ fetched_on := 0, id := "uuid-0", keywords := ["a"],
             type := "googleSearchHits", hits := 0 }] ∧
    ([{ fetched_on := 0, id := "uuid-0", keywords := ["a"],
        type := "googleSearchHits", hits := 0 }] : List HitsItem).length = 1 := by
  have h := googlehits_fetch_yields_one ["a"] uuid0 0
  exact ⟨h.2.trans (by decide), h.1 (.marker "") _ (h.2.trans (by decide))⟩

/-- C2 counterexample: with the marker div present and text abc, which is
    nonempty but contains no digits, __parse_hits raises (re.search returns
    None and .group fails) instead of returning a zero-hits item as the
    claim states. -/
theorem googlehits_no_digits_cex :
    parse_hits ["perceval"] uuid0 0 (.marker "abc") = .error .attrNoDigits := by
  decide

/-- C2 amended: a wholly absent marker aborts the parse with an error; a
    marker whose text, after removing commas and dots, is empty yields a
    valid zero-hits item; a marker whose text is nonempty but contains no
    digit aborts the parse with an error. -/
theorem googlehits_marker_boundary (keywords : List String)
    (uuid : List String → String) (now : Int) :
    parse_hits keywords uuid now .noMarker = .error .attrNoMarker ∧
    (∀ text, stripSeps text = "" →
      parse_hits keywords uuid now (.marker text) =
        .ok { fetched_on := now, id := uuid (keywords ++ [toString now]),
              keywords := keywords, type := "googleSearchHits", hits := 0 }) ∧
    (∀ text, stripSeps text ≠ "" → firstDigitRun (stripSeps text).data = none →
      parse_hits keywords uuid now (.marker text) = .error .attrNoDigits) := by
  refine ⟨rfl, ?_, ?_⟩
  · intro text h
    simp [parse_hits, h]
  · intro text h hd
    have hb : (stripSeps text == "") = false := beq_eq_false_iff_ne.mpr h
    simp [parse_hits, hb, hd]

/-- C2 amended witness: concrete instances of the three marker cases. -/
theorem googlehits_marker_boundary_witness :
    parse_hits ["a"] uuid0 0 .noMarker = .error .attrNoMarker ∧
    parse_hits ["a"] uuid0 0 (.marker ",.") =
      .ok { fetched_on := 0, id := "uuid-0", keywords := ["a"],
            type := "googleSearchHits", hits := 0 } ∧
    parse_hits ["a"] uuid0 0 (.marker "no digits here") = .error .attrNoDigits := by
  have h := googlehits_marker_boundary ["a"] uuid0 0
  exact ⟨h.1, (h.2.1 ",." (by decide)).trans (by decide),
         h.2.2 "no digits here" (by decide) (by decide)⟩

/-- C5 counterexample: constructing GoogleHits with an empty keywords list,
    or with two blank keywords, raises no error at all, against the claim
    that every invalid or empty query is rejected at construction time. -/
theorem googlehits_empty_keywords_cex :
    init_check ([] : List String) = .ok () ∧
    init_check ["", ""] = .ok () := by
  exact ⟨by decide, by decide⟩

/-- C5 amended: GoogleHits construction raises BackendError exactly when the
    keywords list has length one and its sole element strips to the empty
    string; every other list, including the empty one, is accepted. -/
theorem googlehits_init_check_iff (keywords : List String) :
    init_check keywords = .error ⟨"No keywords provided"⟩ ↔
      (keywords.length = 1 ∧ pyStrip (keywords.headD "").data = []) := by
  unfold init_check
  split
  · next h =>
    simp only [Bool.and_eq_true, beq_iff_eq] at h
    exact iff_of_true rfl h
  · next h =>
    simp only [Bool.and_eq_true, beq_iff_eq, not_and] at h
    constructor
    · intro hh
      cases hh
    · intro hh
      exact absurd hh.2 (h hh.1)

/-- C8 counterexample: on the example query and the marker text 12,345
    results, the category of the produced item is the string google_hits,
    not the string hits the claim names. -/
theorem googlehits_category_cex :
    (parse_hits ["rust", "programming"] uuid0 0
        (.marker "12,345 results")).map metadata_category = .ok "google_hits" ∧
    ("google_hits" : String) ≠ "hits" := by
  exact ⟨by decide, by decide⟩

/-- C8 amended: query rust, programming against a payload whose marker text
    is 12,345 results yields exactly one item whose hits field is 12345,
    obtained by stripping the thousands separator and taking the first run
    of digits, and whose category is google_hits. -/
theorem googlehits_example_scenario :
    fetch_items ["rust", "programming"] uuid0 0 (.marker "12,345 results") =
      .ok [{ fetched_on := 0, id := "uuid-0", keywords := ["rust", "programming"],
             type := "googleSearchHits", hits := 12345 }] ∧
    metadata_category { fetched_on := 0, id := "uuid-0",
                        keywords := ["rust", "programming"],
                        type := "googleSearchHits", hits := 12345 } = "google_hits" := by
  exact ⟨by decide, rfl⟩

end GoogleHits

namespace Jenkins

/-- C1: when fetching the builds of one job raises an HTTPError, status 500
    skips that job, increments the skipped counter by one and continues the
    run exactly as if the walk went on with the remaining jobs; any other
    status aborts the run at once with that error and no items. -/
theorem jenkins_http_error_skip_or_abort (c : JenkinsClient)
    (net : Request → NetResult) (job : Job) (rest : List Job) (s : Nat)
    (h : c.get_builds net job.name = some (.httpError s)) :
    (s = 500 → fetch_items c net (job :: rest) =
      { builds := (fetch_items c net rest).builds,
        skipped := (fetch_items c net rest).skipped + 1,
        error := (fetch_items c net rest).error }) ∧
    (s ≠ 500 → fetch_items c net (job :: rest) =
      { builds := [], skipped := 0, error := some (.httpError s) }) := by
  constructor
  · intro hs
    subst hs
    have hp : processJob c net job = .skippedJob := by
      simp [processJob, h]
    simp [fetch_items, hp]
  · intro hs
    have hb : (s == 500) = false := beq_eq_false_iff_ne.mpr hs
    have hp : processJob c net job = .fatal (.httpError s) := by
      simp [processJob, h, hb]
    simp [fetch_items, hp]

/-- C1 witness: one job over an all-500 network is skipped and the run
    completes; over an all-404 network the run aborts with the error. -/
theorem jenkins_http_error_skip_or_abort_witness :
    fetch_items clientNoAuth net500 [jobA] =
      { builds := [], skipped := 1, error := none } ∧
    fetch_items clientNoAuth net404 [jobA] =
      { builds := [], skipped := 0, error := some (.httpError 404) } := by
  constructor
  · have h := (jenkins_http_error_skip_or_abort clientNoAuth net500 jobA [] 500
      (by decide)).1 rfl
    exact h.trans (by decide)
  · exact (jenkins_http_error_skip_or_abort clientNoAuth net404 jobA [] 404
      (by decide)).2 (by decide)

/-- C3: over a jobs list with no fatal outcome, the run completes, yields
    exactly the concatenation of the builds of the unaffected jobs and its
    skipped counter equals exactly the number of skipped jobs; a job whose
    payload is empty or unparsable, or whose request fails with status 500,
    is such a skipped job. -/
theorem jenkins_fault_isolation (c : JenkinsClient) (net : Request → NetResult)
    (jobs : List Job)
    (h : ∀ j ∈ jobs, (processJob c net j).isFatal = false) :
    fetch_items c net jobs =
      { builds := jobs.flatMap (jobItems c net),
        skipped := jobs.countP (fun j => jobSkipped c net j),
        error := none } ∧
    (∀ j : Job, c.get_builds net j.name = some (.ok .empty) →
      jobSkipped c net j = true) ∧
    (∀ j : Job, c.get_builds net j.name = some (.ok .unparsable) →
      jobSkipped c net j = true) ∧
    (∀ j : Job, c.get_builds net j.name = some (.httpError 500) →
      jobSkipped c net j = true) := by
  refine ⟨fetch_items_no_fatal c net jobs h, ?_, ?_, ?_⟩ <;>
    intro j hj <;> simp [jobSkipped, processJob, hj]

/-- C3 witness: one good job and one unparsable job give one yielded build,
    one skipped job and no error. -/
theorem jenkins_fault_isolation_witness :
    fetch_items clientNoAuth netMix [jobA, jobBad] =
      { builds := [build0], skipped := 1, error := none } := by
  have h := (jenkins_fault_isolation clientNoAuth netMix [jobA, jobBad]
    (by decide)).1
  exact h.trans (by decide)

/-- C6: with a nonempty user and a nonempty api_token, supplying exactly one
    of them makes Jenkins construction raise BackendError; supplying both
    succeeds and attaches the pair as basic auth to the jobs request and to
    every builds request; supplying neither succeeds and attaches no auth. -/
theorem jenkins_auth_config (u t url : String) (bl : Option (List String))
    (d : Nat) (hu : u ≠ "") (ht : t ≠ "") :
    init_check (some u) none =
      .error ⟨"Authentication method requires user and api_token"⟩ ∧
    init_check none (some t) =
      .error ⟨"Authentication method requires user and api_token"⟩ ∧
    init_check (some u) (some t) = .ok () ∧
    (init_client url (some u) (some t) bl d).get_jobs_request.auth = some (u, t) ∧
    (∀ n r, (init_client url (some u) (some t) bl d).get_builds_request n = some r →
      r.auth = some (u, t)) ∧
    init_check none none = .ok () ∧
    (init_client url none none bl d).get_jobs_request.auth = none ∧
    (∀ n r, (init_client url none none bl d).get_builds_request n = some r →
      r.auth = none) := by
  have hub : (u == "") = false := beq_eq_false_iff_ne.mpr hu
  have htb : (t == "") = false := beq_eq_false_iff_ne.mpr ht
  refine ⟨?_, ?_, ?_, ?_, ?_, rfl, rfl, ?_⟩
  · simp [init_check, truthyStr, hub]
  · simp [init_check, truthyStr, htb]
  · simp [init_check, truthyStr, hub, htb]
  · simp [init_client, mkAuth, truthyStr, hub, htb, JenkinsClient.get_jobs_request]
  · intro n r hr
    rw [get_builds_request_auth _ n r hr]
    simp [init_client, mkAuth, truthyStr, hub, htb]
  · intro n r hr
    rw [get_builds_request_auth _ n r hr]
    rfl

/-- C6 witness: concrete credentials exercising the three configurations. -/
theorem jenkins_auth_config_witness :
    init_check (some "user") none =
      .error ⟨"Authentication method requires user and api_token"⟩ ∧
    init_check (some "user") (some "token") = .ok () ∧
    (init_client "http://jenkins.example" (some "user") (some "token")
      none 1).get_jobs_request.auth = some ("user", "token") ∧
    init_check none none = .ok () := by
  have h := jenkins_auth_config "user" "token" "http://jenkins.example" none 1
    (by decide) (by decide)
  exact ⟨h.1, h.2.2.1, h.2.2.2.1, h.2.2.2.2.2.1⟩

/-- C7: a job name on the deny-list never yields a request (get_builds
    returns no data immediately, with no network call), and inserting such
    a job anywhere in the jobs list changes neither the builds yielded by
    the run nor whether and how it aborts. -/
theorem jenkins_blacklist_no_call_no_items (c : JenkinsClient)
    (net : Request → NetResult) (j : Job)
    (hbl : blacklistHit c.blacklist_jobs j.name = true) :
    c.get_builds_request j.name = none ∧
    ∀ pre post : List Job,
      (fetch_items c net (pre ++ j :: post)).builds =
        (fetch_items c net (pre ++ post)).builds ∧
      (fetch_items c net (pre ++ j :: post)).error =
        (fetch_items c net (pre ++ post)).error := by
  have hreq : c.get_builds_request j.name = none := by
    unfold JenkinsClient.get_builds_request
    rw [if_pos hbl]
  refine ⟨hreq, ?_⟩
  intro pre post
  induction pre with
  | nil =>
    have hp : processJob c net j = .skippedJob := by
      simp [processJob, JenkinsClient.get_builds, hreq]
    simp [fetch_items, hp]
  | cons p ps ih =>
    cases hp : processJob c net p <;>
      simp [fetch_items, hp, ih.1, ih.2]

/-- C7 witness: the denied job produces no request, and dropping it from a
    concrete run changes neither builds nor error. -/
theorem jenkins_blacklist_no_call_no_items_witness :
    clientBL.get_builds_request "deny" = none ∧
    (fetch_items clientBL netBuilds [jobA, jobDeny]).builds =
      (fetch_items clientBL netBuilds [jobA]).builds ∧
    (fetch_items clientBL netBuilds [jobA, jobDeny]).error =
      (fetch_items clientBL netBuilds [jobA]).error := by
  have h := jenkins_blacklist_no_call_no_items clientBL netBuilds jobDeny
    (by decide)
  exact ⟨h.1, (h.2 [jobA] []).1, (h.2 [jobA] []).2⟩

/-- C9: Jenkins.metadata_id reads only the url field of the build item, so
    two independently parsed copies of the same upstream record, which agree
    on that field, receive equal identifiers. -/
theorem jenkins_metadata_id_pure (b1 b2 : Build) (h : b1.url = b2.url) :
    metadata_id b1 = b1.url ∧ metadata_id b1 = metadata_id b2 :=
  ⟨rfl, h⟩

/-- C9 witness: two copies of one record with the same url get the same id. -/
theorem jenkins_metadata_id_pure_witness :
    metadata_id { url := "http://jenkins.example/job/a/1", timestamp := 1000 } =
      "http://jenkins.example/job/a/1" ∧
    metadata_id { url := "http://jenkins.example/job/a/1", timestamp := 1000 } =
      metadata_id { url := "http://jenkins.example/job/a/1", timestamp := 1000 } :=
  jenkins_metadata_id_pure
    { url := "http://jenkins.example/job/a/1", timestamp := 1000 }
    { url := "http://jenkins.example/job/a/1", timestamp := 1000 } rfl

/-- C10: constructing Jenkins with user and api_token both the empty string
    raises no error, because the validity check tests Python truthiness, and
    the resulting client attaches no auth to the jobs request nor to any
    builds request. -/
theorem jenkins_empty_string_auth (url : String) (bl : Option (List String))
    (d : Nat) :
    init_check (some "") (some "") = .ok () ∧
    (init_client url (some "") (some "") bl d).auth = none ∧
    (init_client url (some "") (some "") bl d).get_jobs_request.auth = none ∧
    ∀ n r, (init_client url (some "") (some "") bl d).get_builds_request n = some r →
      r.auth = none := by
  refine ⟨rfl, rfl, rfl, ?_⟩
  intro n r hr
  rw [get_builds_request_auth _ n r hr]
  rfl

/-- C10 witness: a concrete builds request of the empty-credentials client
    carries no auth. -/
theorem jenkins_empty_string_auth_witness :
    ({ segments := ["http://jenkins.example", "job", "a", "api", "json"],
       depth := some 1, auth := none } : Request).auth = none := by
  exact (jenkins_empty_string_auth "http://jenkins.example" none 1).2.2.2 "a"
    { segments := ["http://jenkins.example", "job", "a", "api", "json"],
      depth := some 1, auth := none } (by decide)

end Jenkins

end Perceval
